import Mathlib

/-!
# Verification of the Python-for-Deep-Learning notebooks

A shallow embedding of the manual XOR feedforward network of the first
notebook (sigmoid activation, two-layer forward pass, hand-computed
delta-rule gradients), of the datasets and accuracy computations of the
notebooks, and of the corpus-level structure (in which order each notebook
loads data and builds its model, which train via a library fit call, which
define local classes, and where a metric is printed), together with proofs
of the specification claims about them.

All arithmetic is read as exact real arithmetic.
-/

noncomputable section

open Real

/-! ## The sigmoid activation and its claimed derivative

From the first notebook:

  def sigmoid(x):
      return 1/(1 + np.exp(-x))

  def sigmoid_derivative(x):
      return x * (1 - x)
-/

/-- sigmoid from the notebook: 1/(1 + np.exp(-x)). -/
def sigmoid (x : ℝ) : ℝ := 1 / (1 + Real.exp (-x))

/-- sigmoid_derivative from the notebook: x * (1 - x).  Note this is a
function of an activation value, not of the pre-activation input. -/
def sigmoid_derivative (x : ℝ) : ℝ := x * (1 - x)

/-! ## The manual XOR network

From the first notebook's training cell, for one sample (x1, x2) with
target y, reading the matrix operations entrywise (W1 is 2x2 with entries
w11 w12 / w21 w22, b1 = (b11, b12), W2 = (v1, v2), b2 = c):

  hidden_input  = np.dot(X, W1) + b1
  hidden_output = sigmoid(hidden_input)
  final_input   = np.dot(hidden_output, W2) + b2
  final_output  = sigmoid(final_input)
-/

/-- First entry of hidden_output for one sample. -/
def hidden1 (w11 w21 b11 x1 x2 : ℝ) : ℝ := sigmoid (x1 * w11 + x2 * w21 + b11)

/-- Second entry of hidden_output for one sample. -/
def hidden2 (w12 w22 b12 x1 x2 : ℝ) : ℝ := sigmoid (x1 * w12 + x2 * w22 + b12)

/-- final_output for one sample. -/
def finalOut (w11 w12 w21 w22 b11 b12 v1 v2 c x1 x2 : ℝ) : ℝ :=
  sigmoid (hidden1 w11 w21 b11 x1 x2 * v1 + hidden2 w12 w22 b12 x1 x2 * v2 + c)

/-- error = y - final_output for one sample. -/
def sampleErr (w11 w12 w21 w22 b11 b12 v1 v2 c x1 x2 y : ℝ) : ℝ :=
  y - finalOut w11 w12 w21 w22 b11 b12 v1 v2 c x1 x2

/-- loss = np.mean(np.square(error)) over the four XOR samples
(0,0) target 0, (0,1) target 1, (1,0) target 1, (1,1) target 0. -/
def loss (w11 w12 w21 w22 b11 b12 v1 v2 c : ℝ) : ℝ :=
  (sampleErr w11 w12 w21 w22 b11 b12 v1 v2 c 0 0 0 ^ 2 +
   sampleErr w11 w12 w21 w22 b11 b12 v1 v2 c 0 1 1 ^ 2 +
   sampleErr w11 w12 w21 w22 b11 b12 v1 v2 c 1 0 1 ^ 2 +
   sampleErr w11 w12 w21 w22 b11 b12 v1 v2 c 1 1 0 ^ 2) / 4

/-! ## The hand-computed backward pass

  d_output = error * sigmoid_derivative(final_output)
  W2_grad  = np.dot(hidden_output.T, d_output)
  b2_grad  = np.sum(d_output, axis=0, keepdims=True)
  d_hidden = np.dot(d_output, W2.T) * sigmoid_derivative(hidden_output)
  W1_grad  = np.dot(X.T, d_hidden)
  b1_grad  = np.sum(d_hidden, axis=0, keepdims=True)
-/

/-- d_output for one sample. -/
def dOut (w11 w12 w21 w22 b11 b12 v1 v2 c x1 x2 y : ℝ) : ℝ :=
  sampleErr w11 w12 w21 w22 b11 b12 v1 v2 c x1 x2 y *
    sigmoid_derivative (finalOut w11 w12 w21 w22 b11 b12 v1 v2 c x1 x2)

/-- First entry of d_hidden for one sample: d_output * W2[1] *
sigmoid_derivative(hidden_output[1]). -/
def dHid1 (w11 w12 w21 w22 b11 b12 v1 v2 c x1 x2 y : ℝ) : ℝ :=
  dOut w11 w12 w21 w22 b11 b12 v1 v2 c x1 x2 y * v1 *
    sigmoid_derivative (hidden1 w11 w21 b11 x1 x2)

/-- Second entry of d_hidden for one sample. -/
def dHid2 (w11 w12 w21 w22 b11 b12 v1 v2 c x1 x2 y : ℝ) : ℝ :=
  dOut w11 w12 w21 w22 b11 b12 v1 v2 c x1 x2 y * v2 *
    sigmoid_derivative (hidden2 w12 w22 b12 x1 x2)

/-- Entry 1 of W2_grad = hidden_output.T . d_output, summed over the four
XOR samples. -/
def W2grad1 (w11 w12 w21 w22 b11 b12 v1 v2 c : ℝ) : ℝ :=
  hidden1 w11 w21 b11 0 0 * dOut w11 w12 w21 w22 b11 b12 v1 v2 c 0 0 0 +
  hidden1 w11 w21 b11 0 1 * dOut w11 w12 w21 w22 b11 b12 v1 v2 c 0 1 1 +
  hidden1 w11 w21 b11 1 0 * dOut w11 w12 w21 w22 b11 b12 v1 v2 c 1 0 1 +
  hidden1 w11 w21 b11 1 1 * dOut w11 w12 w21 w22 b11 b12 v1 v2 c 1 1 0

/-- Entry 2 of W2_grad. -/
def W2grad2 (w11 w12 w21 w22 b11 b12 v1 v2 c : ℝ) : ℝ :=
  hidden2 w12 w22 b12 0 0 * dOut w11 w12 w21 w22 b11 b12 v1 v2 c 0 0 0 +
  hidden2 w12 w22 b12 0 1 * dOut w11 w12 w21 w22 b11 b12 v1 v2 c 0 1 1 +
  hidden2 w12 w22 b12 1 0 * dOut w11 w12 w21 w22 b11 b12 v1 v2 c 1 0 1 +
  hidden2 w12 w22 b12 1 1 * dOut w11 w12 w21 w22 b11 b12 v1 v2 c 1 1 0

/-- b2_grad = column sum of d_output. -/
def b2grad (w11 w12 w21 w22 b11 b12 v1 v2 c : ℝ) : ℝ :=
  dOut w11 w12 w21 w22 b11 b12 v1 v2 c 0 0 0 +
  dOut w11 w12 w21 w22 b11 b12 v1 v2 c 0 1 1 +
  dOut w11 w12 w21 w22 b11 b12 v1 v2 c 1 0 1 +
  dOut w11 w12 w21 w22 b11 b12 v1 v2 c 1 1 0

/-- Entry (1,1) of W1_grad = X.T . d_hidden: the first column of X over the
four samples is (0, 0, 1, 1). -/
def W1grad11 (w11 w12 w21 w22 b11 b12 v1 v2 c : ℝ) : ℝ :=
  0 * dHid1 w11 w12 w21 w22 b11 b12 v1 v2 c 0 0 0 +
  0 * dHid1 w11 w12 w21 w22 b11 b12 v1 v2 c 0 1 1 +
  1 * dHid1 w11 w12 w21 w22 b11 b12 v1 v2 c 1 0 1 +
  1 * dHid1 w11 w12 w21 w22 b11 b12 v1 v2 c 1 1 0

/-- Entry (1,2) of W1_grad. -/
def W1grad12 (w11 w12 w21 w22 b11 b12 v1 v2 c : ℝ) : ℝ :=
  0 * dHid2 w11 w12 w21 w22 b11 b12 v1 v2 c 0 0 0 +
  0 * dHid2 w11 w12 w21 w22 b11 b12 v1 v2 c 0 1 1 +
  1 * dHid2 w11 w12 w21 w22 b11 b12 v1 v2 c 1 0 1 +
  1 * dHid2 w11 w12 w21 w22 b11 b12 v1 v2 c 1 1 0

/-- Entry (2,1) of W1_grad: the second column of X is (0, 1, 0, 1). -/
def W1grad21 (w11 w12 w21 w22 b11 b12 v1 v2 c : ℝ) : ℝ :=
  0 * dHid1 w11 w12 w21 w22 b11 b12 v1 v2 c 0 0 0 +
  1 * dHid1 w11 w12 w21 w22 b11 b12 v1 v2 c 0 1 1 +
  0 * dHid1 w11 w12 w21 w22 b11 b12 v1 v2 c 1 0 1 +
  1 * dHid1 w11 w12 w21 w22 b11 b12 v1 v2 c 1 1 0

/-- Entry (2,2) of W1_grad. -/
def W1grad22 (w11 w12 w21 w22 b11 b12 v1 v2 c : ℝ) : ℝ :=
  0 * dHid2 w11 w12 w21 w22 b11 b12 v1 v2 c 0 0 0 +
  1 * dHid2 w11 w12 w21 w22 b11 b12 v1 v2 c 0 1 1 +
  0 * dHid2 w11 w12 w21 w22 b11 b12 v1 v2 c 1 0 1 +
  1 * dHid2 w11 w12 w21 w22 b11 b12 v1 v2 c 1 1 0

/-- Entry 1 of b1_grad = column sum of d_hidden. -/
def b1grad1 (w11 w12 w21 w22 b11 b12 v1 v2 c : ℝ) : ℝ :=
  dHid1 w11 w12 w21 w22 b11 b12 v1 v2 c 0 0 0 +
  dHid1 w11 w12 w21 w22 b11 b12 v1 v2 c 0 1 1 +
  dHid1 w11 w12 w21 w22 b11 b12 v1 v2 c 1 0 1 +
  dHid1 w11 w12 w21 w22 b11 b12 v1 v2 c 1 1 0

/-- Entry 2 of b1_grad. -/
def b1grad2 (w11 w12 w21 w22 b11 b12 v1 v2 c : ℝ) : ℝ :=
  dHid2 w11 w12 w21 w22 b11 b12 v1 v2 c 0 0 0 +
  dHid2 w11 w12 w21 w22 b11 b12 v1 v2 c 0 1 1 +
  dHid2 w11 w12 w21 w22 b11 b12 v1 v2 c 1 0 1 +
  dHid2 w11 w12 w21 w22 b11 b12 v1 v2 c 1 1 0

/-- g is minus twice the derivative of f at x; consequently the in-place
update x := x + lr * g moves x against the gradient of f with effective
step size 2 * lr. -/
def IsNegTwiceGrad (f : ℝ → ℝ) (g x : ℝ) : Prop :=
  ∃ D : ℝ, HasDerivAt f D x ∧ g = -2 * D ∧
    ∀ lr : ℝ, x + lr * g = x - 2 * lr * D

/-! ## The matrix form of the forward pass -/

/-- Elementwise sigmoid of a matrix. -/
def matSigmoid {m n : ℕ} (A : Matrix (Fin m) (Fin n) ℝ) :
    Matrix (Fin m) (Fin n) ℝ :=
  fun i j => sigmoid (A i j)

/-- NumPy row broadcasting: adding a 1-by-n bias row to an m-by-n matrix
adds the bias to every row. -/
def addBias {m n : ℕ} (A : Matrix (Fin m) (Fin n) ℝ)
    (b : Matrix (Fin 1) (Fin n) ℝ) : Matrix (Fin m) (Fin n) ℝ :=
  fun i j => A i j + b 0 j

/-- hidden_input = np.dot(X, W1) + b1. -/
def hidden_input {m : ℕ} (X : Matrix (Fin m) (Fin 2) ℝ)
    (W1 : Matrix (Fin 2) (Fin 2) ℝ) (b1 : Matrix (Fin 1) (Fin 2) ℝ) :
    Matrix (Fin m) (Fin 2) ℝ :=
  addBias (X * W1) b1

/-- hidden_output = sigmoid(hidden_input). -/
def hidden_output {m : ℕ} (X : Matrix (Fin m) (Fin 2) ℝ)
    (W1 : Matrix (Fin 2) (Fin 2) ℝ) (b1 : Matrix (Fin 1) (Fin 2) ℝ) :
    Matrix (Fin m) (Fin 2) ℝ :=
  matSigmoid (hidden_input X W1 b1)

/-- final_input = np.dot(hidden_output, W2) + b2. -/
def final_input {m : ℕ} (X : Matrix (Fin m) (Fin 2) ℝ)
    (W1 : Matrix (Fin 2) (Fin 2) ℝ) (b1 : Matrix (Fin 1) (Fin 2) ℝ)
    (W2 : Matrix (Fin 2) (Fin 1) ℝ) (b2 : Matrix (Fin 1) (Fin 1) ℝ) :
    Matrix (Fin m) (Fin 1) ℝ :=
  addBias (hidden_output X W1 b1 * W2) b2

/-- final_output = sigmoid(final_input): the network's prediction. -/
def final_output {m : ℕ} (X : Matrix (Fin m) (Fin 2) ℝ)
    (W1 : Matrix (Fin 2) (Fin 2) ℝ) (b1 : Matrix (Fin 1) (Fin 2) ℝ)
    (W2 : Matrix (Fin 2) (Fin 1) ℝ) (b2 : Matrix (Fin 1) (Fin 1) ℝ) :
    Matrix (Fin m) (Fin 1) ℝ :=
  matSigmoid (final_input X W1 b1 W2 b2)

/-- The composite formula stated by the spec:
sigmoid(sigmoid(X . W1 + b1) . W2 + b2), exactly two matrix
multiplications, each followed by a bias addition and an elementwise
sigmoid, and nothing else. -/
def specForward {m : ℕ} (X : Matrix (Fin m) (Fin 2) ℝ)
    (W1 : Matrix (Fin 2) (Fin 2) ℝ) (b1 : Matrix (Fin 1) (Fin 2) ℝ)
    (W2 : Matrix (Fin 2) (Fin 1) ℝ) (b2 : Matrix (Fin 1) (Fin 1) ℝ) :
    Matrix (Fin m) (Fin 1) ℝ :=
  matSigmoid (addBias (matSigmoid (addBias (X * W1) b1) * W2) b2)

/-- predictions = (final_output >= 0.5), reported as the integer that NumPy
compares the boolean against (True matches 1, False matches 0), which is
also binary_predictions = (final_output >= 0.5).astype(int). -/
def threshPred (p : Fin 4 → ℝ) (i : Fin 4) : ℕ :=
  if (0.5 : ℝ) ≤ p i then 1 else 0

/-- The hand-rolled metric np.mean(predictions == y): the fraction of the
four entries where the thresholded prediction matches the label. -/
def manualAccuracy (p : Fin 4 → ℝ) (y : Fin 4 → ℕ) : ℝ :=
  (∑ i, if threshPred p i = y i then (1 : ℝ) else 0) / 4

/-- Modelled from the spec: scikit-learn's accuracy_score(y_true, y_pred),
which is outside this repository, returns the fraction of samples whose
predicted label equals the true label. -/
def accuracy_score (yTrue yPred : Fin 4 → ℕ) : ℝ :=
  (∑ i, if yTrue i = yPred i then (1 : ℝ) else 0) / 4

/-! ## The 4-point binary datasets -/

/-- The four binary input pairs used by every 4-point dataset in the
corpus: X = np.array([[0,0],[0,1],[1,0],[1,1]]). -/
def binaryInputs : List (ℕ × ℕ) := [(0, 0), (0, 1), (1, 0), (1, 1)]

/-- Labels of the manual XOR notebook: y = np.array([[0],[1],[1],[0]]). -/
def yManualXor : List ℕ := [0, 1, 1, 0]

/-- Labels of the first dataset of the ANN notebook:
y_train_data = np.array([[0],[1],[0],[0]], dtype=np.float32). -/
def yAnn : List ℕ := [0, 1, 0, 0]

/-- Labels of the XORModel cell of the ANN notebook:
y_train_data = np.array([[0],[1],[1],[0]], dtype=np.float32). -/
def yXorModel : List ℕ := [0, 1, 1, 0]

/-- Exclusive-or of the two components of a binary pair. -/
def xorLabel (p : ℕ × ℕ) : ℕ := (p.1 + p.2) % 2

/-- A label list is the XOR labelling of the four binary pairs. -/
def LabelsAreXor (ys : List ℕ) : Prop := ys = binaryInputs.map xorLabel

/-! ## Corpus-level structure

One record per notebook, read off the source files: whether the data is
loaded before the model is built, how the training phase is run, whether
the notebook defines a local class, and where (if anywhere) its code
prints a loss or accuracy metric.

* xor_manual: the manual NumPy notebook; defines the XOR arrays before
  initialising the weight matrices; trains through the locally written
  loop "for epoch in range(epochs)" with epochs = 10000; defines only
  functions, no class; prints the accuracy after training.
* cnn_cifar10: builds the Sequential CNN and prints its summary before
  loading CIFAR-10, then calls model.fit; its code prints no loss or
  accuracy metric (the per-epoch numbers are fit's own logging).
* rnn_lstm_imdb: loads IMDB, builds SimpleRNN and LSTM models, calls
  model.fit, then model.evaluate and prints the test accuracy.
* ann_xor: the ANN notebook; defines its data arrays before the model
  variables and before class XORModel(tf.keras.Model); trains through the
  locally written loop "for epoch in range(1000)" around tf.GradientTape
  (after a single manual GradientTape step); prints the loss every 100
  epochs inside the loop and only the raw predictions afterwards.
* hierarchical_clustering: generates its data, then calls
  AgglomerativeClustering(...).fit; prints the cluster labels and a
  dendrogram, no metric.
* deep_neural_networks: loads IMDB, builds a Sequential model, calls
  model.fit, then model.evaluate and prints the test accuracy.
* decision_trees: loads iris, builds and fits DecisionTreeClassifier,
  then prints the accuracy and further metrics.
-/

/-- How a notebook runs its training phase. -/
inductive TrainingPhase
  /-- a call into a library-provided training routine such as fit -/
  | libraryFit
  /-- a locally written epoch loop with the given iteration count -/
  | localLoop (epochs : ℕ)
  deriving DecidableEq

/-- Where a notebook's own code prints a loss or accuracy metric. -/
inductive MetricPrint
  /-- a metric is printed after the training phase -/
  | afterTraining
  /-- a metric is printed only inside the training loop -/
  | duringTraining
  /-- the notebook's code prints no metric -/
  | nowhere
  deriving DecidableEq

/-- The facts the claims need about one notebook. -/
structure NotebookInfo where
  name : String
  loadsDataBeforeBuildingModel : Bool
  training : TrainingPhase
  definesLocalClass : Bool
  metricPrint : MetricPrint
  deriving DecidableEq

/-- The seven notebooks of the corpus. -/
def corpus : List NotebookInfo :=
  [⟨"xor_manual", true, .localLoop 10000, false, .afterTraining⟩,
   ⟨"cnn_cifar10", false, .libraryFit, false, .nowhere⟩,
   ⟨"rnn_lstm_imdb", true, .libraryFit, false, .afterTraining⟩,
   ⟨"ann_xor", true, .localLoop 1000, true, .duringTraining⟩,
   ⟨"hierarchical_clustering", true, .libraryFit, false, .nowhere⟩,
   ⟨"deep_neural_networks", true, .libraryFit, false, .afterTraining⟩,
   ⟨"decision_trees", true, .libraryFit, false, .afterTraining⟩]

/-- The C4 sentence: every notebook executes its steps in the fixed order
load data, then build a model, then train through a library-provided
routine (rather than a locally written epoch loop), then print a
metric. -/
def EveryNotebookIsLinearLibraryScript : Prop :=
  ∀ nb ∈ corpus, nb.loadsDataBeforeBuildingModel = true ∧
    nb.training = TrainingPhase.libraryFit ∧
    nb.metricPrint = MetricPrint.afterTraining

/-- The C5 sentence: outside the manual cell block of the first notebook,
no notebook has a locally written training iteration and none defines a
local class. -/
def OnlyManualBlockIsLocal : Prop :=
  ∀ nb ∈ corpus, nb.name ≠ "xor_manual" →
    nb.training = TrainingPhase.libraryFit ∧ nb.definesLocalClass = false

/-- The denominator of sigmoid is positive. -/
lemma sigmoid_den_pos (x : ℝ) : 0 < 1 + Real.exp (-x) := by
  have := Real.exp_pos (-x)
  linarith

/-- The denominator of sigmoid is nonzero. -/
lemma sigmoid_den_ne_zero (x : ℝ) : 1 + Real.exp (-x) ≠ 0 :=
  ne_of_gt (sigmoid_den_pos x)

/-- sigmoid takes values strictly above 0. -/
lemma sigmoid_pos (x : ℝ) : 0 < sigmoid x :=
  div_pos one_pos (sigmoid_den_pos x)

/-- sigmoid takes values strictly below 1. -/
lemma sigmoid_lt_one (x : ℝ) : sigmoid x < 1 := by
  rw [sigmoid, div_lt_one (sigmoid_den_pos x)]
  have := Real.exp_pos (-x)
  linarith

/-- sigmoid at 0 is 1/2. -/
lemma sigmoid_zero_eq : sigmoid 0 = 1 / 2 := by
  rw [sigmoid]
  norm_num

/-- The true derivative of sigmoid at x, expressed through
sigmoid_derivative applied to the activation sigmoid x. -/
lemma hasDerivAt_sigmoid (x : ℝ) :
    HasDerivAt sigmoid (sigmoid_derivative (sigmoid x)) x := by
  have hd : HasDerivAt (fun t : ℝ => 1 + Real.exp (-t)) (-Real.exp (-x)) x := by
    have hn : HasDerivAt (fun t : ℝ => -t) (-1) x := (hasDerivAt_id x).neg
    have he : HasDerivAt (fun t : ℝ => Real.exp (-t)) (Real.exp (-x) * (-1)) x :=
      HasDerivAt.exp hn
    simpa [mul_comm] using he.const_add 1
  have hinv := hd.inv (sigmoid_den_ne_zero x)
  have hfun : (fun t : ℝ => (1 + Real.exp (-t))⁻¹) = sigmoid := by
    funext t
    rw [sigmoid, one_div]
  rw [hfun] at hinv
  convert hinv using 1
  rw [sigmoid_derivative, sigmoid]
  have h := sigmoid_den_ne_zero x
  field_simp
  ring

/-- Composition form of the sigmoid derivative, used to differentiate the
forward pass. -/
lemma HasDerivAt.sigmoid_comp {f : ℝ → ℝ} {d x : ℝ} (hf : HasDerivAt f d x) :
    HasDerivAt (fun t => sigmoid (f t))
      (sigmoid_derivative (sigmoid (f x)) * d) x := by
  simpa using (hasDerivAt_sigmoid (f x)).comp x hf

lemma isNegTwiceGrad_intro {f : ℝ → ℝ} {g x D : ℝ} (h : HasDerivAt f D x)
    (hg : g = -2 * D) : IsNegTwiceGrad f g x :=
  ⟨D, h, hg, fun lr => by rw [hg]; ring⟩

/-! ## Derivative shapes for the per-sample squared error

One lemma per syntactic position that a parameter occupies in the unfolded
per-sample loss. -/

/-- Output-layer weight multiplying the first hidden activation. -/
lemma hasDerivAt_out1 (a b c y v : ℝ) :
    HasDerivAt (fun t => (y - sigmoid (a * t + b + c)) ^ 2)
      (-2 * (y - sigmoid (a * v + b + c)) *
        (sigmoid_derivative (sigmoid (a * v + b + c)) * a)) v := by
  have h0 : HasDerivAt (fun t : ℝ => a * t) a v := by
    simpa using (hasDerivAt_id v).const_mul a
  have h4 := (((h0.add_const b).add_const c).sigmoid_comp.const_sub y).pow 2
  convert h4 using 1
  norm_num

/-- Output-layer weight multiplying the second hidden activation. -/
lemma hasDerivAt_out2 (a b c y v : ℝ) :
    HasDerivAt (fun t => (y - sigmoid (b + a * t + c)) ^ 2)
      (-2 * (y - sigmoid (b + a * v + c)) *
        (sigmoid_derivative (sigmoid (b + a * v + c)) * a)) v := by
  have h0 : HasDerivAt (fun t : ℝ => b + a * t) a v := by
    simpa using ((hasDerivAt_id v).const_mul a).const_add b
  have h4 := ((h0.add_const c).sigmoid_comp.const_sub y).pow 2
  convert h4 using 1
  norm_num

/-- Output-layer bias. -/
lemma hasDerivAt_out3 (b y v : ℝ) :
    HasDerivAt (fun t => (y - sigmoid (b + t)) ^ 2)
      (-2 * (y - sigmoid (b + v)) * sigmoid_derivative (sigmoid (b + v))) v := by
  have h0 : HasDerivAt (fun t : ℝ => b + t) 1 v := (hasDerivAt_id v).const_add b
  have h4 := (h0.sigmoid_comp.const_sub y).pow 2
  convert h4 using 1
  norm_num

/-- Hidden-layer weight: first slot of the inner affine map, hidden unit in
the first slot of the output affine map. -/
lemma hasDerivAt_hid11 (p q r a m c y v : ℝ) :
    HasDerivAt (fun t => (y - sigmoid (sigmoid (p * t + q + r) * a + m + c)) ^ 2)
      (-2 * (y - sigmoid (sigmoid (p * v + q + r) * a + m + c)) *
        (sigmoid_derivative (sigmoid (sigmoid (p * v + q + r) * a + m + c)) *
          (sigmoid_derivative (sigmoid (p * v + q + r)) * p * a))) v := by
  have h0 : HasDerivAt (fun t : ℝ => p * t) p v := by
    simpa using (hasDerivAt_id v).const_mul p
  have h4 := (((((h0.add_const q).add_const r).sigmoid_comp.mul_const a).add_const
      m).add_const c).sigmoid_comp.const_sub y |>.pow 2
  convert h4 using 1
  norm_num

/-- Hidden-layer weight: second slot of the inner affine map, hidden unit in
the first slot of the output affine map. -/
lemma hasDerivAt_hid12 (p q r a m c y v : ℝ) :
    HasDerivAt (fun t => (y - sigmoid (sigmoid (q + p * t + r) * a + m + c)) ^ 2)
      (-2 * (y - sigmoid (sigmoid (q + p * v + r) * a + m + c)) *
        (sigmoid_derivative (sigmoid (sigmoid (q + p * v + r) * a + m + c)) *
          (sigmoid_derivative (sigmoid (q + p * v + r)) * p * a))) v := by
  have h0 : HasDerivAt (fun t : ℝ => q + p * t) p v := by
    simpa using ((hasDerivAt_id v).const_mul p).const_add q
  have h4 := ((((h0.add_const r).sigmoid_comp.mul_const a).add_const
      m).add_const c).sigmoid_comp.const_sub y |>.pow 2
  convert h4 using 1
  norm_num

/-- Hidden-layer bias, hidden unit in the first slot of the output affine
map. -/
lemma hasDerivAt_hid1b (q a m c y v : ℝ) :
    HasDerivAt (fun t => (y - sigmoid (sigmoid (q + t) * a + m + c)) ^ 2)
      (-2 * (y - sigmoid (sigmoid (q + v) * a + m + c)) *
        (sigmoid_derivative (sigmoid (sigmoid (q + v) * a + m + c)) *
          (sigmoid_derivative (sigmoid (q + v)) * a))) v := by
  have h0 : HasDerivAt (fun t : ℝ => q + t) 1 v := (hasDerivAt_id v).const_add q
  have h4 := (((h0.sigmoid_comp.mul_const a).add_const
      m).add_const c).sigmoid_comp.const_sub y |>.pow 2
  convert h4 using 1
  norm_num

/-- Hidden-layer weight: first slot of the inner affine map, hidden unit in
the second slot of the output affine map. -/
lemma hasDerivAt_hid21 (p q r a m c y v : ℝ) :
    HasDerivAt (fun t => (y - sigmoid (m + sigmoid (p * t + q + r) * a + c)) ^ 2)
      (-2 * (y - sigmoid (m + sigmoid (p * v + q + r) * a + c)) *
        (sigmoid_derivative (sigmoid (m + sigmoid (p * v + q + r) * a + c)) *
          (sigmoid_derivative (sigmoid (p * v + q + r)) * p * a))) v := by
  have h0 : HasDerivAt (fun t : ℝ => p * t) p v := by
    simpa using (hasDerivAt_id v).const_mul p
  have h4 := ((((((h0.add_const q).add_const r).sigmoid_comp.mul_const a).const_add
      m).add_const c).sigmoid_comp.const_sub y).pow 2
  convert h4 using 1
  norm_num

/-- Hidden-layer weight: second slot of the inner affine map, hidden unit in
the second slot of the output affine map. -/
lemma hasDerivAt_hid22 (p q r a m c y v : ℝ) :
    HasDerivAt (fun t => (y - sigmoid (m + sigmoid (q + p * t + r) * a + c)) ^ 2)
      (-2 * (y - sigmoid (m + sigmoid (q + p * v + r) * a + c)) *
        (sigmoid_derivative (sigmoid (m + sigmoid (q + p * v + r) * a + c)) *
          (sigmoid_derivative (sigmoid (q + p * v + r)) * p * a))) v := by
  have h0 : HasDerivAt (fun t : ℝ => q + p * t) p v := by
    simpa using ((hasDerivAt_id v).const_mul p).const_add q
  have h4 := (((((h0.add_const r).sigmoid_comp.mul_const a).const_add
      m).add_const c).sigmoid_comp.const_sub y).pow 2
  convert h4 using 1
  norm_num

/-- Hidden-layer bias, hidden unit in the second slot of the output affine
map. -/
lemma hasDerivAt_hid2b (q a m c y v : ℝ) :
    HasDerivAt (fun t => (y - sigmoid (m + sigmoid (q + t) * a + c)) ^ 2)
      (-2 * (y - sigmoid (m + sigmoid (q + v) * a + c)) *
        (sigmoid_derivative (sigmoid (m + sigmoid (q + v) * a + c)) *
          (sigmoid_derivative (sigmoid (q + v)) * a))) v := by
  have h0 : HasDerivAt (fun t : ℝ => q + t) 1 v := (hasDerivAt_id v).const_add q
  have h4 := ((((h0.sigmoid_comp.mul_const a).const_add
      m).add_const c).sigmoid_comp.const_sub y).pow 2
  convert h4 using 1
  norm_num

/-! ## The delta-rule gradients are exact: one lemma per parameter -/

lemma isNegTwiceGrad_v1 (w11 w12 w21 w22 b11 b12 v1 v2 c : ℝ) :
    IsNegTwiceGrad (fun t => loss w11 w12 w21 w22 b11 b12 t v2 c)
      (W2grad1 w11 w12 w21 w22 b11 b12 v1 v2 c) v1 := by
  apply isNegTwiceGrad_intro
  · simp only [loss, sampleErr, finalOut, hidden1, hidden2]
    exact ((((hasDerivAt_out1 _ _ c 0 v1).add (hasDerivAt_out1 _ _ c 1 v1)).add
      (hasDerivAt_out1 _ _ c 1 v1)).add (hasDerivAt_out1 _ _ c 0 v1)).div_const 4
  · simp only [W2grad1, dOut, sampleErr, finalOut, hidden1, hidden2,
      sigmoid_derivative]
    ring

lemma isNegTwiceGrad_v2 (w11 w12 w21 w22 b11 b12 v1 v2 c : ℝ) :
    IsNegTwiceGrad (fun t => loss w11 w12 w21 w22 b11 b12 v1 t c)
      (W2grad2 w11 w12 w21 w22 b11 b12 v1 v2 c) v2 := by
  apply isNegTwiceGrad_intro
  · simp only [loss, sampleErr, finalOut, hidden1, hidden2]
    exact ((((hasDerivAt_out2 _ _ c 0 v2).add (hasDerivAt_out2 _ _ c 1 v2)).add
      (hasDerivAt_out2 _ _ c 1 v2)).add (hasDerivAt_out2 _ _ c 0 v2)).div_const 4
  · simp only [W2grad2, dOut, sampleErr, finalOut, hidden1, hidden2,
      sigmoid_derivative]
    ring

lemma isNegTwiceGrad_b2 (w11 w12 w21 w22 b11 b12 v1 v2 c : ℝ) :
    IsNegTwiceGrad (fun t => loss w11 w12 w21 w22 b11 b12 v1 v2 t)
      (b2grad w11 w12 w21 w22 b11 b12 v1 v2 c) c := by
  apply isNegTwiceGrad_intro
  · simp only [loss, sampleErr, finalOut, hidden1, hidden2]
    exact ((((hasDerivAt_out3 _ 0 c).add (hasDerivAt_out3 _ 1 c)).add
      (hasDerivAt_out3 _ 1 c)).add (hasDerivAt_out3 _ 0 c)).div_const 4
  · simp only [b2grad, dOut, sampleErr, finalOut, hidden1, hidden2,
      sigmoid_derivative]
    ring

lemma isNegTwiceGrad_w11 (w11 w12 w21 w22 b11 b12 v1 v2 c : ℝ) :
    IsNegTwiceGrad (fun t => loss t w12 w21 w22 b11 b12 v1 v2 c)
      (W1grad11 w11 w12 w21 w22 b11 b12 v1 v2 c) w11 := by
  apply isNegTwiceGrad_intro
  · simp only [loss, sampleErr, finalOut, hidden1, hidden2]
    exact ((((hasDerivAt_hid11 _ _ _ v1 _ c 0 w11).add
      (hasDerivAt_hid11 _ _ _ v1 _ c 1 w11)).add
      (hasDerivAt_hid11 _ _ _ v1 _ c 1 w11)).add
      (hasDerivAt_hid11 _ _ _ v1 _ c 0 w11)).div_const 4
  · simp only [W1grad11, dHid1, dOut, sampleErr, finalOut, hidden1, hidden2,
      sigmoid_derivative]
    ring

lemma isNegTwiceGrad_w12 (w11 w12 w21 w22 b11 b12 v1 v2 c : ℝ) :
    IsNegTwiceGrad (fun t => loss w11 t w21 w22 b11 b12 v1 v2 c)
      (W1grad12 w11 w12 w21 w22 b11 b12 v1 v2 c) w12 := by
  apply isNegTwiceGrad_intro
  · simp only [loss, sampleErr, finalOut, hidden1, hidden2]
    exact ((((hasDerivAt_hid21 _ _ _ v2 _ c 0 w12).add
      (hasDerivAt_hid21 _ _ _ v2 _ c 1 w12)).add
      (hasDerivAt_hid21 _ _ _ v2 _ c 1 w12)).add
      (hasDerivAt_hid21 _ _ _ v2 _ c 0 w12)).div_const 4
  · simp only [W1grad12, dHid2, dOut, sampleErr, finalOut, hidden1, hidden2,
      sigmoid_derivative]
    ring

lemma isNegTwiceGrad_w21 (w11 w12 w21 w22 b11 b12 v1 v2 c : ℝ) :
    IsNegTwiceGrad (fun t => loss w11 w12 t w22 b11 b12 v1 v2 c)
      (W1grad21 w11 w12 w21 w22 b11 b12 v1 v2 c) w21 := by
  apply isNegTwiceGrad_intro
  · simp only [loss, sampleErr, finalOut, hidden1, hidden2]
    exact ((((hasDerivAt_hid12 _ _ _ v1 _ c 0 w21).add
      (hasDerivAt_hid12 _ _ _ v1 _ c 1 w21)).add
      (hasDerivAt_hid12 _ _ _ v1 _ c 1 w21)).add
      (hasDerivAt_hid12 _ _ _ v1 _ c 0 w21)).div_const 4
  · simp only [W1grad21, dHid1, dOut, sampleErr, finalOut, hidden1, hidden2,
      sigmoid_derivative]
    ring

lemma isNegTwiceGrad_w22 (w11 w12 w21 w22 b11 b12 v1 v2 c : ℝ) :
    IsNegTwiceGrad (fun t => loss w11 w12 w21 t b11 b12 v1 v2 c)
      (W1grad22 w11 w12 w21 w22 b11 b12 v1 v2 c) w22 := by
  apply isNegTwiceGrad_intro
  · simp only [loss, sampleErr, finalOut, hidden1, hidden2]
    exact ((((hasDerivAt_hid22 _ _ _ v2 _ c 0 w22).add
      (hasDerivAt_hid22 _ _ _ v2 _ c 1 w22)).add
      (hasDerivAt_hid22 _ _ _ v2 _ c 1 w22)).add
      (hasDerivAt_hid22 _ _ _ v2 _ c 0 w22)).div_const 4
  · simp only [W1grad22, dHid2, dOut, sampleErr, finalOut, hidden1, hidden2,
      sigmoid_derivative]
    ring

lemma isNegTwiceGrad_b11 (w11 w12 w21 w22 b11 b12 v1 v2 c : ℝ) :
    IsNegTwiceGrad (fun t => loss w11 w12 w21 w22 t b12 v1 v2 c)
      (b1grad1 w11 w12 w21 w22 b11 b12 v1 v2 c) b11 := by
  apply isNegTwiceGrad_intro
  · simp only [loss, sampleErr, finalOut, hidden1, hidden2]
    exact ((((hasDerivAt_hid1b _ v1 _ c 0 b11).add
      (hasDerivAt_hid1b _ v1 _ c 1 b11)).add
      (hasDerivAt_hid1b _ v1 _ c 1 b11)).add
      (hasDerivAt_hid1b _ v1 _ c 0 b11)).div_const 4
  · simp only [b1grad1, dHid1, dOut, sampleErr, finalOut, hidden1, hidden2,
      sigmoid_derivative]
    ring

lemma isNegTwiceGrad_b12 (w11 w12 w21 w22 b11 b12 v1 v2 c : ℝ) :
    IsNegTwiceGrad (fun t => loss w11 w12 w21 w22 b11 t v1 v2 c)
      (b1grad2 w11 w12 w21 w22 b11 b12 v1 v2 c) b12 := by
  apply isNegTwiceGrad_intro
  · simp only [loss, sampleErr, finalOut, hidden1, hidden2]
    exact ((((hasDerivAt_hid2b _ v2 _ c 0 b12).add
      (hasDerivAt_hid2b _ v2 _ c 1 b12)).add
      (hasDerivAt_hid2b _ v2 _ c 1 b12)).add
      (hasDerivAt_hid2b _ v2 _ c 0 b12)).div_const 4
  · simp only [b1grad2, dHid2, dOut, sampleErr, finalOut, hidden1, hidden2,
      sigmoid_derivative]
    ring

/-- C1: in every iteration of the manual XOR training loop the
hand-computed gradients are exact: for arbitrary current weights and
biases, each of the delta-rule quantities W2_grad, b2_grad, W1_grad,
b1_grad equals -2 times the partial derivative of the mean-squared-error
loss with respect to the corresponding parameter, so every update
theta += learning_rate * theta_grad is a gradient-descent step on the
loss with effective step size 2 * learning_rate. -/
theorem xor_manual_gradients_exact (w11 w12 w21 w22 b11 b12 v1 v2 c : ℝ) :
    IsNegTwiceGrad (fun t => loss w11 w12 w21 w22 b11 b12 t v2 c)
      (W2grad1 w11 w12 w21 w22 b11 b12 v1 v2 c) v1 ∧
    IsNegTwiceGrad (fun t => loss w11 w12 w21 w22 b11 b12 v1 t c)
      (W2grad2 w11 w12 w21 w22 b11 b12 v1 v2 c) v2 ∧
    IsNegTwiceGrad (fun t => loss w11 w12 w21 w22 b11 b12 v1 v2 t)
      (b2grad w11 w12 w21 w22 b11 b12 v1 v2 c) c ∧
    IsNegTwiceGrad (fun t => loss t w12 w21 w22 b11 b12 v1 v2 c)
      (W1grad11 w11 w12 w21 w22 b11 b12 v1 v2 c) w11 ∧
    IsNegTwiceGrad (fun t => loss w11 t w21 w22 b11 b12 v1 v2 c)
      (W1grad12 w11 w12 w21 w22 b11 b12 v1 v2 c) w12 ∧
    IsNegTwiceGrad (fun t => loss w11 w12 t w22 b11 b12 v1 v2 c)
      (W1grad21 w11 w12 w21 w22 b11 b12 v1 v2 c) w21 ∧
    IsNegTwiceGrad (fun t => loss w11 w12 w21 t b11 b12 v1 v2 c)
      (W1grad22 w11 w12 w21 w22 b11 b12 v1 v2 c) w22 ∧
    IsNegTwiceGrad (fun t => loss w11 w12 w21 w22 t b12 v1 v2 c)
      (b1grad1 w11 w12 w21 w22 b11 b12 v1 v2 c) b11 ∧
    IsNegTwiceGrad (fun t => loss w11 w12 w21 w22 b11 t v1 v2 c)
      (b1grad2 w11 w12 w21 w22 b11 b12 v1 v2 c) b12 :=
  ⟨isNegTwiceGrad_v1 w11 w12 w21 w22 b11 b12 v1 v2 c,
   isNegTwiceGrad_v2 w11 w12 w21 w22 b11 b12 v1 v2 c,
   isNegTwiceGrad_b2 w11 w12 w21 w22 b11 b12 v1 v2 c,
   isNegTwiceGrad_w11 w11 w12 w21 w22 b11 b12 v1 v2 c,
   isNegTwiceGrad_w12 w11 w12 w21 w22 b11 b12 v1 v2 c,
   isNegTwiceGrad_w21 w11 w12 w21 w22 b11 b12 v1 v2 c,
   isNegTwiceGrad_w22 w11 w12 w21 w22 b11 b12 v1 v2 c,
   isNegTwiceGrad_b11 w11 w12 w21 w22 b11 b12 v1 v2 c,
   isNegTwiceGrad_b12 w11 w12 w21 w22 b11 b12 v1 v2 c⟩

/-- C2: for every weight matrices W1 (2x2), W2 (2x1), biases b1, b2 and
every input matrix X with two columns, the prediction computed by the
notebook's four-step forward pass equals
sigmoid(sigmoid(X . W1 + b1) . W2 + b2). -/
theorem forward_pass_is_two_sigmoid_layers {m : ℕ}
    (X : Matrix (Fin m) (Fin 2) ℝ) (W1 : Matrix (Fin 2) (Fin 2) ℝ)
    (b1 : Matrix (Fin 1) (Fin 2) ℝ) (W2 : Matrix (Fin 2) (Fin 1) ℝ)
    (b2 : Matrix (Fin 1) (Fin 1) ℝ) :
    final_output X W1 b1 W2 b2 = specForward X W1 b1 W2 b2 := rfl

/-- C7: composed with sigmoid, the notebook's sigmoid_derivative computes
the true derivative of sigmoid at every real x; sigmoid_derivative by
itself is not the derivative of sigmoid as a function of its argument (at
0 the derivative of sigmoid is 1/4 while sigmoid_derivative 0 = 0), so it
is correct exactly when applied to an activation value, which is how the
backward pass uses it. -/
theorem sigmoid_derivative_correct_on_activations :
    (∀ x : ℝ, HasDerivAt sigmoid (sigmoid_derivative (sigmoid x)) x) ∧
    deriv sigmoid 0 = 1 / 4 ∧ sigmoid_derivative 0 = 0 ∧
    sigmoid_derivative 0 ≠ deriv sigmoid 0 := by
  have h0 : deriv sigmoid 0 = 1 / 4 := by
    rw [(hasDerivAt_sigmoid 0).deriv, sigmoid_zero_eq, sigmoid_derivative]
    norm_num
  have hz : sigmoid_derivative 0 = 0 := by
    rw [sigmoid_derivative]
    ring
  refine ⟨hasDerivAt_sigmoid, h0, hz, ?_⟩
  rw [h0, hz]
  norm_num

/-- C9: sigmoid maps every real into the open interval (0, 1); hence in
every epoch each entry of hidden_output and final_output lies strictly
between 0 and 1, and for the 0/1 targets of the XOR dataset the error
y - final_output never vanishes. -/
theorem sigmoid_forward_pass_in_open_unit_interval :
    (∀ x : ℝ, 0 < sigmoid x ∧ sigmoid x < 1) ∧
    (∀ w11 w12 w21 w22 b11 b12 v1 v2 c x1 x2 : ℝ,
      (0 < hidden1 w11 w21 b11 x1 x2 ∧ hidden1 w11 w21 b11 x1 x2 < 1) ∧
      (0 < hidden2 w12 w22 b12 x1 x2 ∧ hidden2 w12 w22 b12 x1 x2 < 1) ∧
      (0 < finalOut w11 w12 w21 w22 b11 b12 v1 v2 c x1 x2 ∧
        finalOut w11 w12 w21 w22 b11 b12 v1 v2 c x1 x2 < 1) ∧
      sampleErr w11 w12 w21 w22 b11 b12 v1 v2 c x1 x2 0 ≠ 0 ∧
      sampleErr w11 w12 w21 w22 b11 b12 v1 v2 c x1 x2 1 ≠ 0) := by
  refine ⟨fun x => ⟨sigmoid_pos x, sigmoid_lt_one x⟩, ?_⟩
  intro w11 w12 w21 w22 b11 b12 v1 v2 c x1 x2
  simp only [hidden1, hidden2, finalOut, sampleErr]
  have hp := sigmoid_pos (sigmoid (x1 * w11 + x2 * w21 + b11) * v1 +
    sigmoid (x1 * w12 + x2 * w22 + b12) * v2 + c)
  have hl := sigmoid_lt_one (sigmoid (x1 * w11 + x2 * w21 + b11) * v1 +
    sigmoid (x1 * w12 + x2 * w22 + b12) * v2 + c)
  refine ⟨⟨sigmoid_pos _, sigmoid_lt_one _⟩, ⟨sigmoid_pos _, sigmoid_lt_one _⟩,
    ⟨hp, hl⟩, ?_, ?_⟩ <;> intro h
  · linarith
  · linarith

/-- C8: for every real 4-by-1 output matrix and every integer label vector,
the hand-rolled metric np.mean((p >= 0.5) == y) coincides with
accuracy_score(y, (p >= 0.5).astype(int)). -/
theorem manual_accuracy_eq_accuracy_score (p : Fin 4 → ℝ) (y : Fin 4 → ℕ) :
    manualAccuracy p y = accuracy_score y (threshPred p) := by
  unfold manualAccuracy accuracy_score
  congr 1
  refine Finset.sum_congr rfl fun i _ => ?_
  by_cases h : threshPred p i = y i
  · rw [if_pos h, if_pos h.symm]
  · rw [if_neg h, if_neg fun hh => h hh.symm]

/-- C3 counterexample: the ANN notebook pairs the third binary input
(1, 0) with label 0, although xor 1 0 = 1; its label list is not the XOR
labelling of the four pairs. -/
theorem ann_labels_not_xor :
    yAnn.get ⟨2, by decide⟩ = 0 ∧ xorLabel (1, 0) = 1 ∧ ¬ LabelsAreXor yAnn := by
  refine ⟨rfl, rfl, ?_⟩
  simp only [LabelsAreXor]
  decide

/-- C3 amended: the manual XOR notebook and the XORModel cell label the
four binary pairs by the exclusive-or of the components, giving the label
vector [0,1,1,0]; the ANN notebook's first dataset instead carries the
label vector [0,1,0,0], which is not the XOR labelling. -/
theorem four_point_dataset_labels :
    LabelsAreXor yManualXor ∧ yManualXor = [0, 1, 1, 0] ∧
    LabelsAreXor yXorModel ∧ yXorModel = [0, 1, 1, 0] ∧
    yAnn = [0, 1, 0, 0] ∧ ¬ LabelsAreXor yAnn := by
  refine ⟨?_, rfl, ?_, rfl, rfl, ?_⟩ <;> simp only [LabelsAreXor] <;> decide

/-- C4 counterexample: three clauses of the sentence fail on the corpus:
the CNN notebook builds its model before loading the data and its code
prints no metric, the clustering notebook prints no metric, and the XOR
and ANN notebooks train through locally written epoch loops instead of a
library routine. -/
theorem notebooks_not_all_linear_library_scripts :
    ¬ EveryNotebookIsLinearLibraryScript ∧
    (∃ nb ∈ corpus, nb.name = "cnn_cifar10" ∧
      nb.loadsDataBeforeBuildingModel = false ∧
      nb.metricPrint = MetricPrint.nowhere) ∧
    (∃ nb ∈ corpus, nb.name = "hierarchical_clustering" ∧
      nb.metricPrint = MetricPrint.nowhere) ∧
    (∃ nb ∈ corpus, nb.name = "xor_manual" ∧
      nb.training = TrainingPhase.localLoop 10000) ∧
    (∃ nb ∈ corpus, nb.name = "ann_xor" ∧
      nb.training = TrainingPhase.localLoop 1000) := by
  simp only [EveryNotebookIsLinearLibraryScript]
  decide

/-- C4 amended: the RNN/LSTM, deep-neural-network and decision-tree
notebooks follow the full pattern load data, build model, library fit,
print a metric.  The deviations: the CNN notebook builds its model before
loading the data and its code prints no metric; the clustering notebook
prints no metric; the manual XOR notebook loads before building and
prints its accuracy afterwards but trains through a locally written
10000-epoch loop; the ANN notebook loads before building but trains
through a locally written 1000-epoch loop and prints its loss only inside
that loop. -/
theorem notebook_script_inventory :
    (∀ nb ∈ corpus, nb.name ≠ "cnn_cifar10" →
      nb.loadsDataBeforeBuildingModel = true) ∧
    (∀ nb ∈ corpus, nb.name ≠ "xor_manual" → nb.name ≠ "ann_xor" →
      nb.training = TrainingPhase.libraryFit) ∧
    (∀ nb ∈ corpus, nb.name ≠ "cnn_cifar10" →
      nb.name ≠ "hierarchical_clustering" → nb.name ≠ "ann_xor" →
      nb.metricPrint = MetricPrint.afterTraining) ∧
    (∃ nb ∈ corpus, nb.name = "xor_manual" ∧
      nb.training = TrainingPhase.localLoop 10000 ∧
      nb.loadsDataBeforeBuildingModel = true ∧
      nb.metricPrint = MetricPrint.afterTraining) ∧
    (∃ nb ∈ corpus, nb.name = "ann_xor" ∧
      nb.training = TrainingPhase.localLoop 1000 ∧
      nb.loadsDataBeforeBuildingModel = true ∧
      nb.metricPrint = MetricPrint.duringTraining) := by
  decide

/-- C5 counterexample: the manual cell block is not the only
locally-authored algorithm in the corpus; the ANN notebook both defines a
local class (XORModel) and runs a locally written 1000-epoch training
loop. -/
theorem manual_block_not_only_local_code :
    ¬ OnlyManualBlockIsLocal ∧
    (∃ nb ∈ corpus, nb.name = "ann_xor" ∧ nb.definesLocalClass = true ∧
      nb.training = TrainingPhase.localLoop 1000) := by
  simp only [OnlyManualBlockIsLocal]
  decide

/-- C5 amended: outside the manual XOR notebook, the only locally-authored
component is in the ANN notebook, which defines class XORModel and a local
GradientTape training loop; every other notebook trains through library
calls and defines no class. -/
theorem local_code_inventory :
    (∀ nb ∈ corpus, nb.name ≠ "xor_manual" → nb.name ≠ "ann_xor" →
      nb.training = TrainingPhase.libraryFit ∧ nb.definesLocalClass = false) ∧
    (∃ nb ∈ corpus, nb.name = "ann_xor" ∧ nb.definesLocalClass = true ∧
      nb.training = TrainingPhase.localLoop 1000) := by
  decide
